import Mathlib

/-
Verification of the HLS playback hook (src/components/player/hooks/useHlsPlayer.ts).

The hook is shallowly embedded below.  Machine state that the hook keeps in
closures (the retry counters, the engine reference) becomes explicit record
state; the side effects the hook performs (engine construction, engine
destruction, error callbacks, play requests, setting the sink source) become
explicit action lists, so that each invocation of a handler or of the setup
effect is a pure function from inputs to (state, actions).
-/

namespace KVideoHls

/-- Error categories of the engine fault events (`Hls.ErrorTypes`); the source
switches on `NETWORK_ERROR`, `MEDIA_ERROR`, and a default branch for all other
types. -/
inductive HlsErrorType where
  | networkError
  | mediaError
  | otherError
deriving DecidableEq, Repr

/-- The fields of the engine fault event payload that the error handler reads:
`data.fatal`, `data.type`, `data.details`. -/
structure ErrorData where
  fatal : Bool
  type : HlsErrorType
  details : Option String
deriving DecidableEq, Repr

/-- The two closure-local retry counters declared right before the error
handler is registered (lines 130-131 of the source). -/
structure RetryState where
  networkErrorRetries : Nat
  mediaErrorRetries : Nat
deriving DecidableEq, Repr

/-- `const MAX_RETRIES = 3` (line 132 of the source). -/
def MAX_RETRIES : Nat := 3

/-- Counter state at the moment the handlers are registered for a fresh
engine binding: both counters are initialised to zero. -/
def initialRetryState : RetryState :=
  { networkErrorRetries := 0, mediaErrorRetries := 0 }

/-- JavaScript `v || dflt` on an optional string: `undefined` and the empty
string are falsy and select the default. -/
def jsStringOrDefault (v : Option String) (dflt : String) : String :=
  match v with
  | none => dflt
  | some s => if s = "" then dflt else s

/-- Observable actions performed by the handlers of the hook: engine control
calls, the two notification callbacks, and the play request on the sink. -/
inductive HlsAction where
  | startLoad
  | recoverMediaError
  | callOnError (msg : String)
  | destroyHls
  | requestPlay
  | callOnAutoPlayPrevented (cause : String)
deriving DecidableEq, Repr

/-- The `Hls.Events.ERROR` handler (lines 134-169 of the source), as a pure
step on the counter state returning the actions it performs.  Fatal network
faults increment the network counter, then call `startLoad` while the counter
is at most `MAX_RETRIES` and otherwise report and destroy; fatal media faults
do the same with the media counter and `recoverMediaError`; other fatal
faults report with the detail code and destroy; non-fatal faults only log. -/
def onHlsError (s : RetryState) (d : ErrorData) : RetryState × List HlsAction :=
  if d.fatal then
    match d.type with
    | HlsErrorType.networkError =>
        let s2 := { s with networkErrorRetries := s.networkErrorRetries + 1 }
        if s2.networkErrorRetries ≤ MAX_RETRIES then
          (s2, [HlsAction.startLoad])
        else
          (s2, [HlsAction.callOnError "网络错误：无法加载视频流", HlsAction.destroyHls])
    | HlsErrorType.mediaError =>
        let s2 := { s with mediaErrorRetries := s.mediaErrorRetries + 1 }
        if s2.mediaErrorRetries ≤ MAX_RETRIES then
          (s2, [HlsAction.recoverMediaError])
        else
          (s2, [HlsAction.callOnError "媒体错误：视频格式不支持或已损坏", HlsAction.destroyHls])
    | HlsErrorType.otherError =>
        (s, [HlsAction.callOnError ("致命错误：" ++ jsStringOrDefault d.details "未知错误"),
             HlsAction.destroyHls])
  else
    (s, [])

/-- A fatal network fault event. -/
def netFault : ErrorData :=
  { fatal := true, type := HlsErrorType.networkError, details := none }

/-- Counter state after `n` consecutive fatal network faults, starting from a
fresh binding. -/
def runNetFaults : Nat → RetryState
  | 0 => initialRetryState
  | n + 1 => (onHlsError (runNetFaults n) netFault).1

/-- A quality level of the parsed manifest; the handler only reads its
`videoCodec` field, which may be absent. -/
structure HlsLevel where
  videoCodec : Option String
deriving DecidableEq, Repr

/-- JavaScript `String.prototype.toLowerCase` on the ASCII codec strings the
handler compares, character by character. -/
def jsToLowerCase (s : String) : String :=
  String.mk (s.data.map Char.toLower)

/-- JavaScript `String.prototype.includes`: `needle` occurs as a contiguous
substring of `hay`. -/
def jsIncludes (hay needle : String) : Bool :=
  hay.data.tails.any (fun t => needle.data.isPrefixOf t)

/-- The per-level test inside `levels.some(...)` (lines 108-111 of the
source): the lower-cased codec string contains `"hev"` or `"h265"`; a level
without a codec string matches nothing (optional chaining). -/
def levelIsHEVC (l : HlsLevel) : Bool :=
  match l.videoCodec with
  | none => false
  | some c => jsIncludes (jsToLowerCase c) "hev" || jsIncludes (jsToLowerCase c) "h265"

/-- `hasHEVC` of the manifest-parsed handler: the level list is non-empty and
some level passes the HEVC test. -/
def hasHEVC (levels : List HlsLevel) : Bool :=
  decide (0 < levels.length) && levels.any levelIsHEVC

/-- Outcome of the asynchronous `video.play()` request issued by the
manifest-parsed handler. -/
inductive PlayOutcome where
  | resolved
  | rejected (cause : String)
deriving DecidableEq, Repr

/-- The `Hls.Events.MANIFEST_PARSED` handler (lines 102-128 of the source):
first the codec advisory (one `onError` call when `hasHEVC` holds), then, if
autoplay intent is set, a play request on the sink whose rejection is routed
to `onAutoPlayPrevented` with the rejection cause.  The handler never reads
the paused state of the sink; the `paused` argument records the sink state at
handler time and is ignored exactly as the source ignores it. -/
def onManifestParsed (levels : List HlsLevel) (autoPlay : Bool) (paused : Bool)
    (playOutcome : PlayOutcome) : List HlsAction :=
  (if hasHEVC levels then
    [HlsAction.callOnError "检测到 HEVC/H.265 编码，当前浏览器可能不支持"]
   else []) ++
  (if autoPlay then
    HlsAction.requestPlay ::
      (match playOutcome with
       | PlayOutcome.resolved => []
       | PlayOutcome.rejected cause => [HlsAction.callOnAutoPlayPrevented cause])
   else [])

/-- The `Hls.Events.FRAG_LOADED` handler (lines 94-100 of the source): a play
request is issued only when autoplay intent is set, the sink is paused, and
the loaded fragment starts at offset zero; its rejection is only logged. -/
def onFragLoaded (autoPlay : Bool) (paused : Bool) (fragStart : Rat) : List HlsAction :=
  if autoPlay = true ∧ paused = true ∧ fragStart = 0 then [HlsAction.requestPlay] else []

/-- Discriminator: the action is an `onError` callback invocation. -/
def isErrorCall : HlsAction → Bool
  | HlsAction.callOnError _ => true
  | _ => false

/-- Discriminator: the action is an `onAutoPlayPrevented` callback invocation. -/
def isPreventedCall : HlsAction → Bool
  | HlsAction.callOnAutoPlayPrevented _ => true
  | _ => false

/-- Discriminator: the action destroys the engine. -/
def isDestroyCall : HlsAction → Bool
  | HlsAction.destroyHls => true
  | _ => false

/-- Discriminator: the action is a play request on the sink. -/
def isPlayRequest : HlsAction → Bool
  | HlsAction.requestPlay => true
  | _ => false

/-- The three playback paths the setup effect can take. -/
inductive PlaybackPath where
  | native
  | engineManaged
  | unsupported
deriving DecidableEq, Repr

/-- The branch structure of lines 35-180 of the source:
`isNativeHlsSupported` is the string returned by `video.canPlayType`, truthy
exactly when non-empty; inside `Hls.isSupported()` the engine is constructed
only when native support is absent, otherwise the native path is taken; when
the engine runtime is unsupported the native path is taken if available, and
otherwise the path is unsupported. -/
def selectPlaybackPath (canPlayTypeResult : String) (hlsIsSupported : Bool) : PlaybackPath :=
  if hlsIsSupported then
    if canPlayTypeResult = "" then PlaybackPath.engineManaged else PlaybackPath.native
  else if canPlayTypeResult ≠ "" then PlaybackPath.native
  else PlaybackPath.unsupported

/-- Observable actions of one run of the setup effect, in program order. -/
inductive SetupAction where
  | destroyEngine (id : Nat)
  | evalCapability
  | createEngine (id : Nat)
  | engineLoadSource (url : String)
  | engineAttachMedia
  | setNativeSrc (url : String)
  | emitError (msg : String)
deriving DecidableEq, Repr

/-- Discriminator: the action destroys an engine instance. -/
def isDestroy : SetupAction → Bool
  | SetupAction.destroyEngine _ => true
  | _ => false

/-- Discriminator: the action constructs an engine instance. -/
def isCreate : SetupAction → Bool
  | SetupAction.createEngine _ => true
  | _ => false

/-- Discriminator: the action assigns the source URL directly to the sink. -/
def isSetSrc : SetupAction → Bool
  | SetupAction.setNativeSrc _ => true
  | _ => false

/-- State the hook threads across effect runs: `hlsRef` is the persistent
`useRef` holding the current engine instance (identified by a creation
index), `prevCleanup` is the instance captured by the cleanup closure
returned by the previous effect run (the local `hls` of that run), and
`nextId` numbers engine constructions. -/
structure ControllerState where
  nextId : Nat
  hlsRef : Option Nat
  prevCleanup : Option Nat
deriving DecidableEq, Repr

/-- State before the first effect run: no engine has ever been constructed. -/
def initialControllerState : ControllerState :=
  { nextId := 0, hlsRef := none, prevCleanup := none }

/-- The inputs one effect run reads: whether `videoRef.current` is non-null,
the source URL, the `canPlayType` answer of the sink, and `Hls.isSupported()`. -/
structure SetupInput where
  videoPresent : Bool
  src : String
  canPlayTypeResult : String
  hlsIsSupported : Bool
deriving DecidableEq, Repr

/-- Effect inputs with the sink element present. -/
def setupInputOf (src canPlayTypeResult : String) (hlsIsSupported : Bool) : SetupInput :=
  { videoPresent := true, src := src, canPlayTypeResult := canPlayTypeResult,
    hlsIsSupported := hlsIsSupported }

/-- Effect inputs with the sink element absent. -/
def noVideoInput : SetupInput :=
  { videoPresent := false, src := "stream.m3u8", canPlayTypeResult := "maybe",
    hlsIsSupported := true }

/-- The destroy call performed on a referenced instance, if any. -/
def refCleanupActs (r : Option Nat) : List SetupAction :=
  match r with
  | some i => [SetupAction.destroyEngine i]
  | none => []

/-- The body of the effect (lines 21-186 of the source): bail out when the
sink is absent or the source URL is empty (leaving all state untouched and
performing no action); otherwise destroy the previously referenced engine
first, then evaluate capability, and per path either construct a fresh
engine, load the source into it and attach the sink, or assign the source to
the sink natively, or emit the unsupported-configuration error.  The second
component of the result is the action trace in program order; the
`prevCleanup` of the resulting state is the instance the cleanup closure
returned by this run will destroy (the engine constructed by this run, or
nothing). -/
def setupBody (s : ControllerState) (inp : SetupInput) : ControllerState × List SetupAction :=
  if inp.videoPresent = false ∨ inp.src = "" then
    ({ s with prevCleanup := none }, [])
  else
    let pre := refCleanupActs s.hlsRef
    match selectPlaybackPath inp.canPlayTypeResult inp.hlsIsSupported with
    | PlaybackPath.engineManaged =>
        ({ nextId := s.nextId + 1, hlsRef := some s.nextId, prevCleanup := some s.nextId },
         pre ++ [SetupAction.evalCapability, SetupAction.createEngine s.nextId,
                 SetupAction.engineLoadSource inp.src, SetupAction.engineAttachMedia])
    | PlaybackPath.native =>
        ({ s with hlsRef := none, prevCleanup := none },
         pre ++ [SetupAction.evalCapability, SetupAction.setNativeSrc inp.src])
    | PlaybackPath.unsupported =>
        ({ s with hlsRef := none, prevCleanup := none },
         pre ++ [SetupAction.evalCapability,
                 SetupAction.emitError "当前浏览器不支持 HLS 视频播放"])

/-- One React effect re-run: the cleanup returned by the previous run fires
first (destroying the engine that run constructed, if any), then the effect
body runs. -/
def effectStep (s : ControllerState) (inp : SetupInput) : ControllerState × List SetupAction :=
  let r := setupBody s inp
  (r.1, refCleanupActs s.prevCleanup ++ r.2)

/-- A whole sequence of effect runs for one mounted component, accumulating
the action trace. -/
def runEffects (s : ControllerState) : List SetupInput → ControllerState × List SetupAction
  | [] => (s, [])
  | inp :: rest =>
      let r1 := effectStep s inp
      let r2 := runEffects r1.1 rest
      (r2.1, r1.2 ++ r2.2)

/-- The full action trace of a session: all effect runs followed by the final
unmount cleanup. -/
def sessionTrace (inputs : List SetupInput) : List SetupAction :=
  let r := runEffects initialControllerState inputs
  r.2 ++ refCleanupActs r.1.prevCleanup

/-- Engine-instance accounting: the list of constructed, not yet destroyed
instances after one action. -/
def applySetupAction (live : List Nat) : SetupAction → List Nat
  | SetupAction.createEngine i => i :: live
  | SetupAction.destroyEngine i => live.filter (fun j => j != i)
  | _ => live

/-- Live instances after a whole action trace. -/
def runLive (live : List Nat) (acts : List SetupAction) : List Nat :=
  acts.foldl applySetupAction live

/-- The largest number of simultaneously live engine instances at any point
while an action trace runs, the starting point included. -/
def maxLiveFrom (live : List Nat) : List SetupAction → Nat
  | [] => live.length
  | a :: rest => max live.length (maxLiveFrom (applySetupAction live a) rest)

/-- All destroy actions of the trace precede every other action. -/
def destroysUpFront (l : List SetupAction) : Bool :=
  (l.dropWhile isDestroy).all (fun a => !isDestroy a)

/-- Invariant tying the controller state to the live-instance accounting: at
most one instance is live, and a live instance is exactly the one both
referenced by `hlsRef` and owned by the pending cleanup closure. -/
def ctrlInv (s : ControllerState) (live : List Nat) : Prop :=
  live = [] ∨ ∃ i, live = [i] ∧ s.hlsRef = some i ∧ s.prevCleanup = some i

/-- An engine instance as seen by an event handler: the creation index that
identifies the generation it belongs to, and whether `destroy()` has been
called on it.  Modelled from the spec: the engine runtime itself is an
external collaborator (§4.2, §6); its guarantee that a destroyed instance
delivers no further events (destroy detaches the listeners registered on
that instance) is the part not present under src. -/
structure EngineInstance where
  gen : Nat
  destroyed : Bool
deriving DecidableEq, Repr

/-- Delivery of a fault event from a given instance to the error handler of
the hook.  Modelled from the spec: a destroyed instance delivers nothing
(§4.2); an instance that is not destroyed runs the handler registered on it.
The handler itself is `onHlsError`, embedded from the source; the source
performs no comparison of `currentGen` (the generation of the currently
bound instance) with the generation of the emitting instance, which is why
`currentGen` is ignored here. -/
def dispatchErrorEvent (currentGen : Nat) (inst : EngineInstance) (s : RetryState)
    (d : ErrorData) : RetryState × List HlsAction :=
  if inst.destroyed then (s, []) else onHlsError s d

end KVideoHls

namespace KVideoHls

theorem runNetFaults_network_count (n : Nat) :
    (runNetFaults n).networkErrorRetries = n := by
  induction n with
  | zero => rfl
  | succ k ih =>
      show (onHlsError (runNetFaults k) netFault).1.networkErrorRetries = k + 1
      simp only [onHlsError, netFault, if_pos]
      split <;> simp [ih]

/-- Claim C1: with the network-retry ceiling fixed at 3, each fatal network
fault increments the network counter; while the incremented counter is at
most 3 the handler requests recovery via `startLoad`, and from the 4th
consecutive fatal network fault on (counter exceeding the ceiling) it emits
the network-exhausted error to `onError` and destroys the engine, never
calling `startLoad` again for that or any later fault of the session. -/
theorem network_retry_ceiling (n : Nat) :
    MAX_RETRIES = 3 ∧
    (runNetFaults n).networkErrorRetries = n ∧
    (onHlsError (runNetFaults n) netFault).2 =
      (if n + 1 ≤ 3 then [HlsAction.startLoad]
       else [HlsAction.callOnError "网络错误：无法加载视频流", HlsAction.destroyHls]) := by
  refine ⟨rfl, runNetFaults_network_count n, ?_⟩
  simp only [onHlsError, netFault, if_pos, MAX_RETRIES, runNetFaults_network_count]
  split <;> rfl

/-- Claim C2: the retry counters start at zero when the session binds, every
fault event changes the network counter by exactly one when the fault is
fatal and of network category and by zero otherwise, and symmetrically for
the media counter; in particular the counters never decrease and are never
reset by fault handling. -/
theorem retry_counters_monotone (s : RetryState) (d : ErrorData) :
    initialRetryState.networkErrorRetries = 0 ∧
    initialRetryState.mediaErrorRetries = 0 ∧
    (onHlsError s d).1.networkErrorRetries =
      s.networkErrorRetries +
        (if d.fatal = true ∧ d.type = HlsErrorType.networkError then 1 else 0) ∧
    (onHlsError s d).1.mediaErrorRetries =
      s.mediaErrorRetries +
        (if d.fatal = true ∧ d.type = HlsErrorType.mediaError then 1 else 0) := by
  refine ⟨rfl, rfl, ?_, ?_⟩ <;>
    obtain ⟨f, t, det⟩ := d <;>
    cases f <;> cases t <;>
    simp [onHlsError] <;> split <;> simp

/-- Claim C3 (evaluation at the failing input): the codec string
`"hvc1.1.6.L93.B0"` is an HEVC codec tag, yet the scan of the manifest-parsed
handler, which only looks for the substrings `"hev"` and `"h265"` after
lower-casing, does not detect it, so the handler emits no codec advisory at
all for a manifest whose only level carries this codec string (instead of
the exactly one advisory the specification requires); for contrast, the
sibling HEVC tag `"hev1.1.6.L93.B0"` is detected. -/
theorem hvc1_codec_not_detected :
    levelIsHEVC { videoCodec := some "hvc1.1.6.L93.B0" } = false ∧
    hasHEVC [{ videoCodec := some "hvc1.1.6.L93.B0" }] = false ∧
    (onManifestParsed [{ videoCodec := some "hvc1.1.6.L93.B0" }] false false
        PlayOutcome.resolved).countP isErrorCall = 0 ∧
    levelIsHEVC { videoCodec := some "hev1.1.6.L93.B0" } = true := by
  decide

/-- Claim C6 counterexample: with autoplay intent set and the sink not paused
(already playing), the manifest-parsed handler still issues a play request to
the sink, so it is false that no handler calls `play()` when the sink is not
paused. -/
theorem manifest_plays_when_already_playing :
    (onManifestParsed [] true false PlayOutcome.resolved).countP isPlayRequest = 1 := by
  decide

/-- Claim C6 (amended): the fragment-loaded handler issues a play request
exactly when autoplay intent is set, the sink is paused, and the fragment
starts at offset zero — in particular never when the sink is not paused —
while the manifest-parsed handler issues a play request exactly when autoplay
intent is set, regardless of whether the sink is paused. -/
theorem play_request_policy (autoPlay paused : Bool) (fragStart : Rat)
    (levels : List HlsLevel) (outcome : PlayOutcome) :
    (onFragLoaded autoPlay paused fragStart).countP isPlayRequest =
      (if autoPlay = true ∧ paused = true ∧ fragStart = 0 then 1 else 0) ∧
    (onManifestParsed levels autoPlay paused outcome).countP isPlayRequest =
      (if autoPlay then 1 else 0) := by
  constructor
  · rw [onFragLoaded]
    split <;> simp_all [List.countP, List.countP.go, isPlayRequest]
  · simp only [onManifestParsed]
    cases autoPlay <;>
      cases outcome <;>
      split <;>
      simp_all [List.countP, List.countP.go, isPlayRequest]

/-- Claim C7: when autoplay intent is set and the play request of the
manifest-parsed handler is rejected with a cause, `onAutoPlayPrevented` fires
exactly once carrying exactly that cause, `onError` is not invoked for the
rejection (it fires only for the independent codec advisory, when present),
and the session continues: the handler destroys nothing and performs no
recovery-state action. -/
theorem autoplay_prevented_once (cause : String) (levels : List HlsLevel) (paused : Bool) :
    (onManifestParsed levels true paused (PlayOutcome.rejected cause)).countP
        isPreventedCall = 1 ∧
    (onManifestParsed levels true paused (PlayOutcome.rejected cause)).countP
        (fun a => decide (a = HlsAction.callOnAutoPlayPrevented cause)) = 1 ∧
    (onManifestParsed levels true paused (PlayOutcome.rejected cause)).countP
        isErrorCall = (if hasHEVC levels then 1 else 0) ∧
    (onManifestParsed levels true paused (PlayOutcome.rejected cause)).countP
        isDestroyCall = 0 := by
  simp only [onManifestParsed]
  split <;> simp [List.countP, List.countP.go, isPreventedCall, isErrorCall, isDestroyCall]

/-- Claim C4 counterexample: with native support present (`canPlayType`
answering `"maybe"`) and the engine runtime usable at the same time, the code
selects the native path, not the engine-managed path, and the setup effect
constructs no engine — the engine-managed path is not preferred when native
support is also present. -/
theorem native_chosen_when_both_supported :
    selectPlaybackPath "maybe" true = PlaybackPath.native ∧
    PlaybackPath.native ≠ PlaybackPath.engineManaged ∧
    ((setupBody initialControllerState
        (setupInputOf "stream.m3u8" "maybe" true)).2.countP isCreate = 0) := by
  decide

/-- Claim C4 (amended): the decision prefers the native path whenever the
sink reports native support, uses the engine-managed path only when the
engine runtime is usable and native support is absent, and is unsupported
when neither holds; the setup effect constructs an engine exactly when the
selected path is engine-managed (and the guard passed). -/
theorem capability_decision_order (cpt : String) (hls : Bool) (s : ControllerState)
    (src : String) :
    selectPlaybackPath cpt hls =
      (if cpt ≠ "" then PlaybackPath.native
       else if hls then PlaybackPath.engineManaged
       else PlaybackPath.unsupported) ∧
    ((setupBody s (setupInputOf src cpt hls)).2.countP isCreate =
      (if src = "" then 0
       else if selectPlaybackPath cpt hls = PlaybackPath.engineManaged then 1 else 0)) := by
  constructor
  · by_cases h : cpt = "" <;> cases hls <;> simp [selectPlaybackPath, h]
  · by_cases hs : src = ""
    · simp [setupBody, setupInputOf, hs]
    · cases hsel : selectPlaybackPath cpt hls <;>
        cases hr : s.hlsRef <;>
        simp [setupBody, setupInputOf, hs, hsel, hr, refCleanupActs, List.countP_cons,
          List.countP_nil, isCreate]

/-- Claim C5 counterexample: the event-handling code performs no comparison
of generation identifiers — delivery is gated only on whether `destroy()`
has been called on the emitting instance.  Concretely, a fault event tagged
with generation 0 while the currently bound instance has generation 1 is
still honored (the network counter moves from 0 to 1) whenever the emitting
instance has not been destroyed, which a generation-comparing implementation
would discard. -/
theorem stale_generation_event_honored :
    (dispatchErrorEvent 1 { gen := 0, destroyed := false } initialRetryState
        netFault).1.networkErrorRetries = 1 ∧
    initialRetryState.networkErrorRetries = 0 ∧
    (dispatchErrorEvent 1 { gen := 0, destroyed := false } initialRetryState netFault).2 =
      [HlsAction.startLoad] := by
  decide

/-- Claim C5 (amended): a stale event — one from an instance on which
teardown has been performed — causes no state mutation and no action at all,
for any current generation, any counter state and any fault payload; the
suppression comes from the destroyed instance no longer delivering events
(destroy detaches its listeners), not from a generation-identifier
comparison. -/
theorem destroyed_instance_event_ignored (currentGen : Nat) (inst : EngineInstance)
    (s : RetryState) (d : ErrorData) (h : inst.destroyed = true) :
    dispatchErrorEvent currentGen inst s d = (s, []) := by
  simp [dispatchErrorEvent, h]

/-- Concrete instantiation of `destroyed_instance_event_ignored`: a fatal
network fault from a destroyed generation-0 instance, arriving while
generation 1 is bound, leaves a fresh counter state untouched and performs
no action. -/
theorem destroyed_instance_event_ignored_witness :
    dispatchErrorEvent 1 { gen := 0, destroyed := true } initialRetryState netFault =
      (initialRetryState, []) :=
  destroyed_instance_event_ignored 1 { gen := 0, destroyed := true }
    initialRetryState netFault rfl

/-- Claim C8: when the engine runtime is unusable and the sink reports no
native support (`canPlayType` answering the empty string), the setup effect
emits the fatal configuration error to `onError` immediately, constructs no
engine, never assigns the source to the sink, and ends with no engine
referenced — its whole trace is the destruction of a previously referenced
instance, the capability evaluation, and the error emission. -/
theorem unsupported_reports_config_error (s : ControllerState) (src : String)
    (h : ¬ src = "") :
    ((setupBody s (setupInputOf src "" false)).2 =
      refCleanupActs s.hlsRef ++
        [SetupAction.evalCapability, SetupAction.emitError "当前浏览器不支持 HLS 视频播放"]) ∧
    ((setupBody s (setupInputOf src "" false)).2.countP isCreate = 0) ∧
    ((setupBody s (setupInputOf src "" false)).2.countP isSetSrc = 0) ∧
    (setupBody s (setupInputOf src "" false)).1.hlsRef = none := by
  have hsel : selectPlaybackPath "" false = PlaybackPath.unsupported := rfl
  cases hr : s.hlsRef <;>
    simp [setupBody, setupInputOf, h, hsel, hr, refCleanupActs, List.countP_cons,
      List.countP_nil, isCreate, isSetSrc]

/-- Concrete instantiation of `unsupported_reports_config_error` at a fresh
controller state and a non-empty source URL. -/
theorem unsupported_reports_config_error_witness :
    ((setupBody initialControllerState (setupInputOf "stream.m3u8" "" false)).2 =
      refCleanupActs initialControllerState.hlsRef ++
        [SetupAction.evalCapability, SetupAction.emitError "当前浏览器不支持 HLS 视频播放"]) ∧
    ((setupBody initialControllerState
        (setupInputOf "stream.m3u8" "" false)).2.countP isCreate = 0) ∧
    ((setupBody initialControllerState
        (setupInputOf "stream.m3u8" "" false)).2.countP isSetSrc = 0) ∧
    (setupBody initialControllerState
        (setupInputOf "stream.m3u8" "" false)).1.hlsRef = none :=
  unsupported_reports_config_error initialControllerState "stream.m3u8" (by decide)

/-- Claim C10: when the sink element is absent or the source URL is empty,
the effect body performs no action at all — no engine destruction, no
capability evaluation, no engine construction, no sink assignment, no
callback — and leaves the engine reference and the construction counter
untouched. -/
theorem empty_guard_skips_setup (s : ControllerState) (inp : SetupInput)
    (h : inp.videoPresent = false ∨ inp.src = "") :
    (setupBody s inp).2 = [] ∧
    (setupBody s inp).1.hlsRef = s.hlsRef ∧
    (setupBody s inp).1.nextId = s.nextId := by
  simp [setupBody, h]

/-- Concrete instantiation of `empty_guard_skips_setup`: an absent sink
element. -/
theorem empty_guard_skips_setup_witness :
    (setupBody initialControllerState noVideoInput).2 = [] ∧
    (setupBody initialControllerState noVideoInput).1.hlsRef =
      initialControllerState.hlsRef ∧
    (setupBody initialControllerState noVideoInput).1.nextId =
      initialControllerState.nextId :=
  empty_guard_skips_setup initialControllerState noVideoInput (Or.inl rfl)

theorem length_le_maxLiveFrom (live : List Nat) (acts : List SetupAction) :
    live.length ≤ maxLiveFrom live acts := by
  cases acts with
  | nil => exact Nat.le_refl _
  | cons a rest => exact Nat.le_max_left _ _

theorem maxLiveFrom_append (live : List Nat) (a b : List SetupAction) :
    maxLiveFrom live (a ++ b) =
      max (maxLiveFrom live a) (maxLiveFrom (runLive live a) b) := by
  induction a generalizing live with
  | nil =>
      simp only [List.nil_append, maxLiveFrom, runLive, List.foldl_nil]
      exact (Nat.max_eq_right (length_le_maxLiveFrom live b)).symm
  | cons x xs ih =>
      simp only [List.cons_append, maxLiveFrom, runLive, List.foldl_cons, List.append_eq]
      rw [ih]
      exact (Nat.max_assoc _ _ _).symm

theorem ctrlInv_length_le (s : ControllerState) (live : List Nat) (h : ctrlInv s live) :
    live.length ≤ 1 := by
  rcases h with h | ⟨i, h, _, _⟩ <;> subst h <;> simp

theorem cleanup_bound (live : List Nat) (r : Option Nat) (h : live.length ≤ 1) :
    maxLiveFrom live (refCleanupActs r) ≤ 1 := by
  cases r with
  | none => simpa [refCleanupActs, maxLiveFrom] using h
  | some i =>
      simp only [refCleanupActs, maxLiveFrom, applySetupAction]
      exact max_le h (le_trans (List.length_filter_le _ _) h)

theorem setupBody_bound (s : ControllerState) (inp : SetupInput) :
    ctrlInv (setupBody s inp).1 (runLive [] (setupBody s inp).2) ∧
    maxLiveFrom [] (setupBody s inp).2 ≤ 1 := by
  by_cases hg : (inp.videoPresent = false ∨ inp.src = "")
  · constructor
    · simp [setupBody, hg, runLive, ctrlInv]
    · simp [setupBody, hg, maxLiveFrom]
  · cases hsel : selectPlaybackPath inp.canPlayTypeResult inp.hlsIsSupported <;>
      cases hr : s.hlsRef <;>
      refine ⟨?_, ?_⟩ <;>
      simp [setupBody, hg, hsel, hr, refCleanupActs, runLive, maxLiveFrom,
        applySetupAction, ctrlInv]

theorem runLive_pre_empty (s : ControllerState) (live : List Nat) (h : ctrlInv s live) :
    runLive live (refCleanupActs s.prevCleanup) = [] := by
  rcases h with h | ⟨i, h, _, hp⟩
  · subst h
    cases hq : s.prevCleanup <;> simp [refCleanupActs, runLive, applySetupAction]
  · subst h
    rw [hp]
    simp [refCleanupActs, runLive, applySetupAction]

theorem pre_bound (s : ControllerState) (live : List Nat) (h : ctrlInv s live) :
    maxLiveFrom live (refCleanupActs s.prevCleanup) ≤ 1 :=
  cleanup_bound live s.prevCleanup (ctrlInv_length_le s live h)

theorem effectStep_bound (s : ControllerState) (inp : SetupInput) (live : List Nat)
    (h : ctrlInv s live) :
    ctrlInv (effectStep s inp).1 (runLive live (effectStep s inp).2) ∧
    maxLiveFrom live (effectStep s inp).2 ≤ 1 := by
  have hbody := setupBody_bound s inp
  have hpre := runLive_pre_empty s live h
  have hstep2 : (effectStep s inp).2 =
      refCleanupActs s.prevCleanup ++ (setupBody s inp).2 := rfl
  have hstep1 : (effectStep s inp).1 = (setupBody s inp).1 := rfl
  constructor
  · rw [hstep1, hstep2]
    have : runLive live (refCleanupActs s.prevCleanup ++ (setupBody s inp).2) =
        runLive [] (setupBody s inp).2 := by
      simp [runLive, List.foldl_append]
      rw [show (refCleanupActs s.prevCleanup).foldl applySetupAction live = [] from hpre]
    rw [this]
    exact hbody.1
  · rw [hstep2, maxLiveFrom_append, hpre]
    exact max_le (pre_bound s live h) hbody.2

theorem runEffects_bound (inputs : List SetupInput) :
    ∀ (s : ControllerState) (live : List Nat), ctrlInv s live →
      ctrlInv (runEffects s inputs).1 (runLive live (runEffects s inputs).2) ∧
      maxLiveFrom live (runEffects s inputs).2 ≤ 1 := by
  induction inputs with
  | nil =>
      intro s live h
      refine ⟨by simpa [runEffects, runLive] using h, ?_⟩
      simpa [runEffects, maxLiveFrom] using ctrlInv_length_le s live h
  | cons inp rest ih =>
      intro s live h
      have h1 := effectStep_bound s inp live h
      have h2 := ih (effectStep s inp).1 (runLive live (effectStep s inp).2) h1.1
      have hsplit2 : (runEffects s (inp :: rest)).2 =
          (effectStep s inp).2 ++ (runEffects (effectStep s inp).1 rest).2 := rfl
      have hsplit1 : (runEffects s (inp :: rest)).1 =
          (runEffects (effectStep s inp).1 rest).1 := rfl
      constructor
      · rw [hsplit1, hsplit2]
        have : runLive live ((effectStep s inp).2 ++ (runEffects (effectStep s inp).1 rest).2) =
            runLive (runLive live (effectStep s inp).2)
              (runEffects (effectStep s inp).1 rest).2 := by
          simp [runLive, List.foldl_append]
        rw [this]
        exact h2.1
      · rw [hsplit2, maxLiveFrom_append]
        exact max_le h1.2 (by simpa [runLive] using h2.2)

theorem effectStep_destroys_up_front (s : ControllerState) (inp : SetupInput) :
    destroysUpFront (effectStep s inp).2 = true := by
  have hstep2 : (effectStep s inp).2 =
      refCleanupActs s.prevCleanup ++ (setupBody s inp).2 := rfl
  rw [hstep2]
  by_cases hg : (inp.videoPresent = false ∨ inp.src = "")
  · cases hp : s.prevCleanup <;>
      simp [setupBody, hg, hp, refCleanupActs, destroysUpFront, isDestroy, List.dropWhile]
  · cases hp : s.prevCleanup <;> cases hr : s.hlsRef <;>
      cases hsel : selectPlaybackPath inp.canPlayTypeResult inp.hlsIsSupported <;>
      simp [setupBody, hg, hp, hr, hsel, refCleanupActs, destroysUpFront, isDestroy,
        List.dropWhile]

/-- Claim C9: over any whole session (any sequence of effect-run inputs,
with the cleanup of each run firing before the next run and at unmount), at
most one engine instance is live at every intermediate point of the action
trace; and within every single effect re-run, all engine destructions come
before everything else — in particular before the capability evaluation and
before the construction of the replacement engine. -/
theorem single_live_engine (inputs : List SetupInput) (s : ControllerState)
    (inp : SetupInput) :
    maxLiveFrom [] (sessionTrace inputs) ≤ 1 ∧
    destroysUpFront (effectStep s inp).2 = true := by
  refine ⟨?_, effectStep_destroys_up_front s inp⟩
  have h := runEffects_bound inputs initialControllerState [] (Or.inl rfl)
  have hses : sessionTrace inputs =
      (runEffects initialControllerState inputs).2 ++
        refCleanupActs (runEffects initialControllerState inputs).1.prevCleanup := rfl
  rw [hses, maxLiveFrom_append]
  refine max_le h.2 (cleanup_bound _ _ ?_)
  exact ctrlInv_length_le _ _ h.1

end KVideoHls
